import Mathlib

/-!
Shallow embedding of the Stickfight session/connection layer.

The repository consists of:
* a signaling server (room registry) — file embedded in namespace `Signaling`;
* a relay server (`src/server/relay.js`) — embedded in namespace `Relay`;
* the client networking orchestrator (`useNetworking.js` / `useRelay` /
  `useWebRTC`) — embedded in namespace `Client`.

Servers are single-threaded and run each message handler to completion, so
handlers are embedded as pure functions from explicit state to state plus a
list of observable effects (frames sent, sockets closed, log lines).
JavaScript `Map`s become association lists, `Date.now()` becomes an explicit
`now : Nat` argument, and `crypto.randomBytes` / `Math.random` become explicit
entropy arguments.
-/

/-- Association-list table standing in for a JavaScript `Map`. -/
def Tbl (κ α : Type) : Type := List (κ × α)

instance {κ α : Type} [DecidableEq κ] [DecidableEq α] : DecidableEq (Tbl κ α) :=
  inferInstanceAs (DecidableEq (List (κ × α)))

namespace Tbl

variable {κ α : Type} [DecidableEq κ]

/-- JS `Map.get` (returning `undefined` as `none`). -/
def get? (t : Tbl κ α) (k : κ) : Option α :=
  (t.find? (fun p => p.1 = k)).map Prod.snd

/-- JS `Map.set`: replace any existing binding for `k`. -/
def set (t : Tbl κ α) (k : κ) (v : α) : Tbl κ α :=
  (k, v) :: t.filter (fun p => ¬ p.1 = k)

/-- JS `Map.delete`. -/
def del (t : Tbl κ α) (k : κ) : Tbl κ α :=
  t.filter (fun p => ¬ p.1 = k)

/-- JS `Map.has`. -/
def has (t : Tbl κ α) (k : κ) : Bool :=
  (t.get? k).isSome

end Tbl

namespace Signaling

/-- Constant `BASE32_ALPHABET` (29 characters;
no 0, 1, 8, 9 / I, O to avoid confusion). -/
def BASE32_ALPHABET : List Char :=
  ['A','B','C','D','E','F','G','H','J','K','L','M','N','P','Q','R','S','T',
   'U','V','W','X','Y','Z','2','3','4','5','6']

/-- The four bytes drawn by `crypto.randomBytes(4)`, as a lookup
`bytes[j]` for `j < 4`. -/
def byteAt (b0 b1 b2 b3 : Nat) : Nat → Nat
  | 0 => b0
  | 1 => b1
  | 2 => b2
  | _ => b3

/-- Function `generateRoomCode()`: 6 iterations of
`code += BASE32_ALPHABET[bytes[i % 4] % BASE32_ALPHABET.length]`. -/
def generateRoomCode (b0 b1 b2 b3 : Nat) : List Char :=
  (List.range 6).map
    (fun i => BASE32_ALPHABET.getD (byteAt b0 b1 b2 b3 (i % 4) % BASE32_ALPHABET.length) 'A')

/-- A signaling WebSocket.  `role` and `room` are the expando fields the
server writes onto the socket object (`ws.role = ...`, `ws.room = ...`);
`isOpen` abstracts `ws.readyState === WebSocket.OPEN`. -/
structure WS where
  id : Nat
  remoteAddress : String
  isOpen : Bool
  role : Option String := none
  room : Option (List Char) := none
  deriving DecidableEq

/-- Source `class Room` of the signaling server.  The `heartbeatTimer` handle is
abstracted to the boolean `heartbeatOn` (whether a timer is installed). -/
structure Room where
  code : List Char
  host : Option WS := none
  guest : Option WS := none
  createdAt : Nat
  lastActivity : Nat
  heartbeatOn : Bool := false
  deriving DecidableEq

/-- Constructor `new Room(code)` at time `now`. -/
def Room.mkNew (code : List Char) (now : Nat) : Room :=
  { code := code, createdAt := now, lastActivity := now }

/-- Method `Room.addPlayer(ws, role)`.  A JavaScript `throw` aborts the method
before any field assignment, so the error branches return the inputs
untouched together with the thrown error code.  On success the updated
room, the updated socket (with `ws.role` / `ws.room` written) and no error
are returned. -/
def Room.addPlayer (r : Room) (ws : WS) (role : String) (now : Nat) :
    Room × WS × Option String :=
  if role = "host" then
    if r.host.isSome then (r, ws, some "ROOM_FULL")
    else
      let ws' : WS := { ws with role := some "host", room := some r.code }
      ({ r with host := some ws', heartbeatOn := true, lastActivity := now }, ws', none)
  else if role = "guest" then
    if r.guest.isSome then (r, ws, some "ROOM_FULL")
    else
      let ws' : WS := { ws with role := some "guest", room := some r.code }
      ({ r with guest := some ws', lastActivity := now }, ws', none)
  else
    ({ r with lastActivity := now }, ws, none)

/-- Method `Room.isExpired()`: idle for more than 2 minutes or older than
30 minutes. -/
def Room.isExpired (r : Room) (now : Nat) : Bool :=
  now - r.lastActivity > 2 * 60 * 1000 ∨ now - r.createdAt > 30 * 60 * 1000

/-- Per-IP rate-limit record of the signaling server: sliding 10-minute
window of handshake timestamps plus a concurrent-room counter. -/
structure RateLimitEntry where
  handshakes : List Nat := []
  rooms : Nat := 0
  deriving DecidableEq

/-- Whole mutable state of the signaling server: the `rooms` and
`rateLimits` maps. -/
structure SigState where
  rooms : Tbl (List Char) Room := []
  rateLimits : Tbl String RateLimitEntry := []
  deriving DecidableEq

/-- Function `checkRateLimit(ip)`.  Returns the table after the mutations that
happen before any `throw` (entry creation and pruning of old handshakes
persist even when `RATE_LIMITED` is thrown), plus the thrown error if
any. -/
def checkRateLimit (tbl : Tbl String RateLimitEntry) (ip : String) (now : Nat) :
    Tbl String RateLimitEntry × Option String :=
  let windowSize := 10 * 60 * 1000
  let entry := (tbl.get? ip).getD {}
  let entry := { entry with handshakes := entry.handshakes.filter (fun t => now - t < windowSize) }
  if entry.handshakes.length ≥ 30 then (tbl.set ip entry, some "RATE_LIMITED")
  else if entry.rooms ≥ 5 then (tbl.set ip entry, some "RATE_LIMITED")
  else (tbl.set ip { entry with handshakes := entry.handshakes ++ [now] }, none)

/-- The `do { code = generateRoomCode(); attempts++; if (attempts > 10)
throw ...; } while (rooms.has(code))` loop of `handleHello`'s host branch.
The stream of `crypto.randomBytes(4)` draws is passed as the list `quads`;
each iteration consumes one quadruple.  A run that exhausts `quads` (which
the real generator cannot do) is marked with the distinct code
`"ENTROPY_EXHAUSTED"`. -/
def genCodeLoop (has : List Char → Bool) :
    List (Nat × Nat × Nat × Nat) → Nat → Except String (List Char)
  | [], _ => .error "ENTROPY_EXHAUSTED"
  | (b0, b1, b2, b3) :: rest, attempts =>
    let code := generateRoomCode b0 b1 b2 b3
    let attempts' := attempts + 1
    if attempts' > 10 then .error "ROOM_GENERATION_FAILED"
    else if has code then genCodeLoop has rest attempts'
    else .ok code

/-- Payload of `hello-ack` (the opaque random TURN credential object produced
by `generateTurnCredentials` is omitted). -/
structure HelloAck where
  room : List Char
  role : String
  deriving DecidableEq

/-- Function `handleHello(ws, message)`.  Arguments: current server state, the
sender socket, the message's `role` and `room` fields, the stream of
random byte quadruples, and the clock.  Returns the state after the
handler (including mutations that precede a `throw`), the possibly
updated socket, and either the `hello-ack` payload or the thrown error
code. -/
def handleHello (st : SigState) (ws : WS) (role : String)
    (roomField : Option (List Char)) (quads : List (Nat × Nat × Nat × Nat))
    (now : Nat) : SigState × WS × Except String HelloAck :=
  let (rl, rerr) := checkRateLimit st.rateLimits ws.remoteAddress now
  let st := { st with rateLimits := rl }
  match rerr with
  | some e => (st, ws, .error e)
  | none =>
    if role = "host" then
      match genCodeLoop (fun c => st.rooms.has c) quads 0 with
      | .error e => (st, ws, .error e)
      | .ok code =>
        let r := Room.mkNew code now
        let (r, ws', err) := r.addPlayer ws "host" now
        match err with
        | some e => (st, ws, .error e)
        | none =>
          let entry := (st.rateLimits.get? ws.remoteAddress).getD {}
          let st := { st with
            rooms := st.rooms.set code r,
            rateLimits := st.rateLimits.set ws.remoteAddress { entry with rooms := entry.rooms + 1 } }
          (st, ws', .ok { room := code, role := "host" })
    else if role = "guest" then
      match roomField with
      | none => (st, ws, .error "ROOM_CODE_REQUIRED")
      | some rc =>
        match st.rooms.get? rc with
        | none => (st, ws, .error "ROOM_NOT_FOUND")
        | some r =>
          if r.isExpired now then
            ({ st with rooms := st.rooms.del rc }, ws, .error "ROOM_EXPIRED")
          else
            let (r', ws', err) := r.addPlayer ws "guest" now
            match err with
            | some e => (st, ws, .error e)
            | none =>
              let entry := (st.rateLimits.get? ws.remoteAddress).getD {}
              let st := { st with
                rooms := st.rooms.set rc r',
                rateLimits := st.rateLimits.set ws.remoteAddress { entry with rooms := entry.rooms + 1 } }
              (st, ws', .ok { room := rc, role := "guest" })
    else (st, ws, .error "INVALID_ROLE")

end Signaling

namespace Relay

/-- Constant `MAX_MESSAGE_SIZE = 8 * 1024`. -/
def MAX_MESSAGE_SIZE : Nat := 8 * 1024

/-- Constant `MAX_MESSAGES_PER_SECOND = 60`. -/
def MAX_MESSAGES_PER_SECOND : Nat := 60

/-- A relay WebSocket.  `role` and `session` are the expando fields the
server writes onto the socket (`ws.role = ...`, `ws.session = ...`);
`isOpen` abstracts `ws.readyState === WebSocket.OPEN`.  Reference
equality (`ws === other`) is modelled by equality of `id`. -/
structure WS where
  id : Nat
  remoteAddress : String
  isOpen : Bool
  role : Option String := none
  session : Option String := none
  deriving DecidableEq

/-- A parsed relay JSON message: the `type` discriminator plus the `role`
and `room` fields read by `handleRoleMessage`.  The gameplay payload is
opaque to the relay (it forwards the whole message verbatim), so it is
not modelled separately. -/
structure Msg where
  mtype : String
  role : Option String := none
  room : Option String := none
  deriving DecidableEq

/-- Frames the relay can emit. -/
inductive Frame
  /-- frame `{type:'error', code, message}` -/
  | errorF (code : String) (message : Option String)
  /-- frame `{type:'role-ack', role, room}` -/
  | roleAck (role room : String)
  /-- frame `{type:'pong'}` -/
  | pong
  /-- a verbatim-forwarded gameplay message -/
  | forward (m : Msg)
  deriving DecidableEq

/-- Observable effects of a relay handler. -/
inductive Effect
  /-- effect `targetWs.send(JSON.stringify(frame))` -/
  | send (toId : Nat) (f : Frame)
  /-- effect `ws.close(code, reason)` -/
  | closeSock (toId : Nat) (code : Nat) (reason : String)
  /-- a `console.warn`/`console.log` line -/
  | logWarn (text : String)
  deriving DecidableEq

/-- `class RelaySession`. -/
structure RelaySession where
  roomCode : String
  host : Option WS := none
  guest : Option WS := none
  createdAt : Nat
  lastActivity : Nat
  messageCount : Nat := 0
  deriving DecidableEq

/-- Constructor `new RelaySession(roomCode)` at time `now`. -/
def RelaySession.mkNew (roomCode : String) (now : Nat) : RelaySession :=
  { roomCode := roomCode, createdAt := now, lastActivity := now }

/-- Method `RelaySession.addPlayer(ws, role)`: an occupied slot is *replaced* —
the previous socket is closed with code 1000 and reason
`"Replaced by new host"` / `"Replaced by new guest"` and the new socket
takes the slot.  Returns the updated session, the updated socket (with
`ws.role` / `ws.session` written) and the emitted effects. -/
def RelaySession.addPlayer (s : RelaySession) (ws : WS) (role : String) (now : Nat) :
    RelaySession × WS × List Effect :=
  if role = "host" then
    let effs := match s.host with
      | some prev => [Effect.closeSock prev.id 1000 "Replaced by new host"]
      | none => []
    let ws' : WS := { ws with role := some role, session := some s.roomCode }
    ({ s with host := some ws', lastActivity := now }, ws', effs)
  else if role = "guest" then
    let effs := match s.guest with
      | some prev => [Effect.closeSock prev.id 1000 "Replaced by new guest"]
      | none => []
    let ws' : WS := { ws with role := some role, session := some s.roomCode }
    ({ s with guest := some ws', lastActivity := now }, ws', effs)
  else
    let ws' : WS := { ws with role := some role, session := some s.roomCode }
    ({ s with lastActivity := now }, ws', [])

/-- Method `RelaySession.forwardMessage(fromWs, message)`: pick the opposite slot
(`fromWs === this.host ? this.guest : this.host`), send the message
verbatim if that socket exists and is open; returns the updated session,
whether the message was forwarded, and the effects. -/
def RelaySession.forwardMessage (s : RelaySession) (fromWs : WS) (m : Msg) (now : Nat) :
    RelaySession × Bool × List Effect :=
  let targetWs := if s.host.map WS.id = some fromWs.id then s.guest else s.host
  match targetWs with
  | some t =>
    if t.isOpen then
      ({ s with messageCount := s.messageCount + 1, lastActivity := now },
       true, [Effect.send t.id (Frame.forward m)])
    else (s, false, [])
  | none => (s, false, [])

/-- Per-IP relay rate-limit record: a message-timestamp list reset every
second. -/
structure RateEntry where
  messages : List Nat := []
  lastReset : Nat
  deriving DecidableEq

/-- Function `checkRateLimit(ws)` of the relay server.  Returns the table after
the handler's mutations plus the thrown error, if any. -/
def checkRateLimit (tbl : Tbl String RateEntry) (ip : String) (now : Nat) :
    Tbl String RateEntry × Option String :=
  let entry := (tbl.get? ip).getD { lastReset := now }
  let entry := if now - entry.lastReset ≥ 1000 then { messages := [], lastReset := now } else entry
  if entry.messages.length ≥ MAX_MESSAGES_PER_SECOND then (tbl.set ip entry, some "RATE_LIMITED")
  else (tbl.set ip { entry with messages := entry.messages ++ [now] }, none)

/-- Function `sendError(ws, code)`: emits the typed error frame only when the
socket is open. -/
def sendError (ws : WS) (code : String) : List Effect :=
  if ws.isOpen then [Effect.send ws.id (Frame.errorF code none)] else []

/-- Type of the relay session table. -/
def Sessions : Type := Tbl String RelaySession

instance : DecidableEq Sessions := inferInstanceAs (DecidableEq (Tbl String RelaySession))

/-- Function `handleRoleMessage(ws, message)`.  Field-presence check (JavaScript
falsiness: a missing *or empty* string fails `if (!role || !room)`), role
validation, get-or-create of the session, `addPlayer`, `role-ack`.
Errors are returned as `Except.error` for `handleMessage`'s catch block;
no session mutation precedes a throw. -/
def handleRoleMessage (sessions : Sessions) (ws : WS) (m : Msg) (now : Nat) :
    Except String (Sessions × WS × List Effect) :=
  match m.role, m.room with
  | some role, some room =>
    if role = "" ∨ room = "" then .error "INVALID_ROLE_MESSAGE"
    else if role ≠ "host" ∧ role ≠ "guest" then .error "INVALID_ROLE"
    else
      let s := (sessions.get? room).getD (RelaySession.mkNew room now)
      let (s', ws', effs) := s.addPlayer ws role now
      .ok (sessions.set room s', ws',
        effs ++ [Effect.send ws.id (Frame.roleAck role room)])
  | _, _ => .error "INVALID_ROLE_MESSAGE"

/-- Function `handleInputMessage(ws, message)`: requires a session
(`NOT_IN_SESSION` / `SESSION_NOT_FOUND` are thrown), silently drops (with
a `console.warn`) input from a non-guest, otherwise forwards to the host
slot, logging (but not erroring) when forwarding fails. -/
def handleInputMessage (sessions : Sessions) (ws : WS) (m : Msg) (now : Nat) :
    Except String (Sessions × List Effect) :=
  match ws.session with
  | none => .error "NOT_IN_SESSION"
  | some sc =>
    match sessions.get? sc with
    | none => .error "SESSION_NOT_FOUND"
    | some s =>
      if ws.role ≠ some "guest" then
        .ok (sessions, [Effect.logWarn "Host attempting to send input message"])
      else
        let (s', forwarded, effs) := s.forwardMessage ws m now
        if forwarded then .ok (sessions.set sc s', effs)
        else .ok (sessions, effs ++ [Effect.logWarn "Failed to forward input message - no host connected"])

/-- Function `handleStateMessage(ws, message)`: symmetric to `handleInputMessage`,
accepted only from the host slot. -/
def handleStateMessage (sessions : Sessions) (ws : WS) (m : Msg) (now : Nat) :
    Except String (Sessions × List Effect) :=
  match ws.session with
  | none => .error "NOT_IN_SESSION"
  | some sc =>
    match sessions.get? sc with
    | none => .error "SESSION_NOT_FOUND"
    | some s =>
      if ws.role ≠ some "host" then
        .ok (sessions, [Effect.logWarn "Guest attempting to send state message"])
      else
        let (s', forwarded, effs) := s.forwardMessage ws m now
        if forwarded then .ok (sessions.set sc s', effs)
        else .ok (sessions, effs ++ [Effect.logWarn "Failed to forward state message - no guest connected"])

/-- Function `handlePingMessage(ws)`: answer `pong` and refresh the session's
activity timestamp. -/
def handlePingMessage (sessions : Sessions) (ws : WS) (now : Nat) :
    Sessions × List Effect :=
  let effs := [Effect.send ws.id Frame.pong]
  match ws.session with
  | none => (sessions, effs)
  | some sc =>
    match sessions.get? sc with
    | none => (sessions, effs)
    | some s => (sessions.set sc { s with lastActivity := now }, effs)

/-- Whole mutable state of the relay server. -/
structure RelayState where
  sessions : Sessions := []
  rateLimits : Tbl String RateEntry := []
  deriving DecidableEq

/-- Function `handleMessage(ws, data)` of the relay server: size check, rate
limit, parse (the parsed message and the raw frame length are passed
separately), dispatch on `message.type`; any thrown error is caught and
answered with `sendError`. -/
def handleMessage (st : RelayState) (ws : WS) (dataLen : Nat) (m : Msg) (now : Nat) :
    RelayState × WS × List Effect :=
  if dataLen > MAX_MESSAGE_SIZE then (st, ws, sendError ws "MESSAGE_TOO_LARGE")
  else
    let (rl, rerr) := checkRateLimit st.rateLimits ws.remoteAddress now
    let st := { st with rateLimits := rl }
    match rerr with
    | some e => (st, ws, sendError ws e)
    | none =>
      if m.mtype = "role" then
        match handleRoleMessage st.sessions ws m now with
        | .error e => (st, ws, sendError ws e)
        | .ok (sessions', ws', effs) => ({ st with sessions := sessions' }, ws', effs)
      else if m.mtype = "input" then
        match handleInputMessage st.sessions ws m now with
        | .error e => (st, ws, sendError ws e)
        | .ok (sessions', effs) => ({ st with sessions := sessions' }, ws, effs)
      else if m.mtype = "state" then
        match handleStateMessage st.sessions ws m now with
        | .error e => (st, ws, sendError ws e)
        | .ok (sessions', effs) => ({ st with sessions := sessions' }, ws, effs)
      else if m.mtype = "ping" then
        let (sessions', effs) := handlePingMessage st.sessions ws now
        ({ st with sessions := sessions' }, ws, effs)
      else (st, ws, [Effect.logWarn ("Unknown relay message type: " ++ m.mtype)])

/-- Run `handleMessage` over a list of `(dataLen, message, timestamp)`
triples all sent by the same socket, collecting each message's effect
list. -/
def runMessages (st : RelayState) (ws : WS) :
    List (Nat × Msg × Nat) → RelayState × WS × List (List Effect)
  | [] => (st, ws, [])
  | (dataLen, m, now) :: rest =>
    let (st', ws', effs) := handleMessage st ws dataLen m now
    let (st'', ws'', outs) := runMessages st' ws' rest
    (st'', ws'', effs :: outs)

/-- Fold `checkRateLimit` over the arrival times of successive messages
from one IP, collecting each outcome (`none` — the message is admitted
and `handleMessage` proceeds to dispatch it; `some code` — it is
rejected before parsing with the thrown `code`). -/
def runRateChecks (tbl : Tbl String RateEntry) (ip : String) :
    List Nat → Tbl String RateEntry × List (Option String)
  | [] => (tbl, [])
  | t :: rest =>
    let (tbl', r) := checkRateLimit tbl ip t
    let (tbl'', rs) := runRateChecks tbl' ip rest
    (tbl'', r :: rs)

end Relay

namespace Client

/-- Constant `WEBRTC_TIMEOUT = 6000` (ms). -/
def WEBRTC_TIMEOUT : Nat := 6000

/-- Constant `RECONNECT_TIMEOUT = 5000` (ms): "5 seconds stable before closing
relay". -/
def RECONNECT_TIMEOUT : Nat := 5000

/-- Constant `RECONNECT_DELAY_BASE = 1000` (ms). -/
def RECONNECT_DELAY_BASE : ℚ := 1000

/-- Constant `MAX_RECONNECT_DELAY = 30000` (ms). -/
def MAX_RECONNECT_DELAY : ℚ := 30000

/-- Function `calculateBackoffDelay()` of `useRelay`:
`Math.min(RECONNECT_DELAY_BASE * Math.pow(2, attempts), MAX_RECONNECT_DELAY) + Math.random() * 1000`.
The `Math.random()` draw is the explicit argument `rand` (a rational in
`[0,1)`). -/
def calculateBackoffDelay (attempts : Nat) (rand : ℚ) : ℚ :=
  min (RECONNECT_DELAY_BASE * 2 ^ attempts) MAX_RECONNECT_DELAY + rand * 1000

/-- What the `ws.onclose` handler of `useRelay` ends up scheduling. -/
inductive CloseOutcome
  /-- the timer callback calls `connect(role, roomCode)` again -/
  | scheduleReconnect
  /-- the timer callback calls
  `setError('Failed to maintain relay connection after multiple attempts')` -/
  | fatalError
  deriving DecidableEq

/-- Handler `ws.onclose` of `useRelay.connect`: compute the backoff
delay from the current `reconnectAttemptsRef`, increment the counter,
and schedule — after that delay — either a reconnect (counter `< 10`) or
the fatal error.  Returns the new counter, the delay, and the scheduled
outcome. -/
def relayOnClose (attempts : Nat) (rand : ℚ) : Nat × ℚ × CloseOutcome :=
  let delay := calculateBackoffDelay attempts rand
  let attempts' := attempts + 1
  (attempts', delay,
    if attempts' < 10 then CloseOutcome.scheduleReconnect else CloseOutcome.fatalError)

/-- Iterate `relayOnClose` over a run in which every (re)connection
attempt fails: each failure raises an `onclose`, consuming one
`Math.random()` draw.  Returns the final counter and whether the fatal
error was declared (after which no further connect happens). -/
def simulateCloses : Nat → List ℚ → Nat × Bool
  | attempts, [] => (attempts, false)
  | attempts, r :: rest =>
    let res := relayOnClose attempts r
    if res.2.2 = CloseOutcome.scheduleReconnect then simulateCloses res.1 rest
    else (res.1, true)

/-- Values of `connectionType` in `GameStateContext`
(`connectionEstablished('webrtc' | 'relay')`). -/
inductive ConnType
  | webrtc
  | relay
  deriving DecidableEq

/-- State of the `useNetworking` orchestrator relevant to the WebRTC
timeout: whether the one-shot `webrtcTimeoutRef` timer is pending, the
current `connectionType`, the `role` / `roomCode` from game state, and a
count of relay-fallback initiations (calls that reach
`relay.connect`). -/
structure NetState where
  webrtcTimeoutPending : Bool := false
  connectionType : Option ConnType := none
  role : Option String := none
  roomCode : Option String := none
  fallbacksInitiated : Nat := 0
  deriving DecidableEq

/-- Function `initiateRelayFallback()` of `useNetworking`: a no-op when already on
relay or when `role`/`roomCode` are missing; otherwise it initiates the
relay fallback (`relay.connect` + handler wiring), counted here. -/
def initiateRelayFallback (s : NetState) : NetState :=
  if s.connectionType = some ConnType.relay then s
  else if s.role = none ∨ s.roomCode = none then s
  else { s with fallbacksInitiated := s.fallbacksInitiated + 1 }

/-- Events driving the orchestrator's WebRTC-timeout behaviour. -/
inductive NetEvent
  /-- event: `hello-ack` with TURN credentials: the connection flow starts and
  arms `webrtcTimeoutRef = setTimeout(initiateRelayFallback, WEBRTC_TIMEOUT)`
  (host arms it after creating the offer; the guest arms the identical
  timer on receiving the offer in `handleSignalingMessage`) -/
  | helloAckTurn
  /-- event: ICE reaches `connected`/`completed`: `connectionEstablished('webrtc')`
  runs and the `connectionType === 'webrtc'` effect clears the pending
  timeout -/
  | iceConnected
  /-- event: relay `role-ack`: `connectionEstablished('relay')` -/
  | relayRoleAck
  /-- event: the one-shot `setTimeout` fires (possible only while pending) -/
  | webrtcTimerFire
  deriving DecidableEq

/-- One step of the orchestrator under a `NetEvent`. -/
def netStep (s : NetState) : NetEvent → NetState
  | NetEvent.helloAckTurn => { s with webrtcTimeoutPending := true }
  | NetEvent.iceConnected =>
    { s with connectionType := some ConnType.webrtc, webrtcTimeoutPending := false }
  | NetEvent.relayRoleAck => { s with connectionType := some ConnType.relay }
  | NetEvent.webrtcTimerFire =>
    if s.webrtcTimeoutPending then
      initiateRelayFallback { s with webrtcTimeoutPending := false }
    else s

/-- Run the orchestrator over a list of events. -/
def runNet (s : NetState) (es : List NetEvent) : NetState := es.foldl netStep s

/-- Client-side connection facts relevant to the 5-second stability
timer of `useWebRTC`: whether the `reconnectTimerRef` timer is pending,
whether the relay WebSocket is open, and whether the WebRTC data channel
is open. -/
structure WebRTCLinkState where
  reconnectTimerPending : Bool := false
  relaySocketOpen : Bool := false
  dataChannelOpen : Bool := false
  deriving DecidableEq

/-- Body of the `RECONNECT_TIMEOUT` (5000 ms) `setTimeout` callback
installed by `createPeerConnection` when ICE reaches
`connected`/`completed`.  In the source the body consists solely of the
comments "Signal that WebRTC is stable and relay can be closed / This
would be handled by the networking orchestrator" — it executes no
statement, so it is the identity on the connection state. -/
def stableTimerCallback (s : WebRTCLinkState) : WebRTCLinkState := s

/-- The 5000 ms stability timer fires: the one-shot timer is spent and
its (empty) callback runs. -/
def onStableTimerFire (s : WebRTCLinkState) : WebRTCLinkState :=
  stableTimerCallback { s with reconnectTimerPending := false }

/-- Transports a gameplay message can be routed to. -/
inductive Transport
  | webrtc
  | relay
  deriving DecidableEq

/-- Routing of `sendSnapshot` / `sendInput` in `useNetworking`:
`if (!webrtc.sendGameMessage(msg)) relay.sendGameMessage(msg)` —
`webrtc.sendGameMessage` succeeds iff the data channel is open, and
`relay.sendGameMessage` sends iff the relay socket is open. -/
def sendGameMessageRoute (s : WebRTCLinkState) : Option Transport :=
  if s.dataChannelOpen then some Transport.webrtc
  else if s.relaySocketOpen then some Transport.relay
  else none

end Client

/-! ## Theorems -/

namespace Tbl

variable {κ α : Type} [DecidableEq κ]

theorem get_set_self (t : Tbl κ α) (k : κ) (v : α) :
    (t.set k v).get? k = some v := by
  simp [Tbl.get?, Tbl.set, List.find?]

theorem get_set_ne (t : Tbl κ α) (k k' : κ) (v : α) (h : k ≠ k') :
    (t.set k v).get? k' = t.get? k' := by
  have key : ∀ l : List (κ × α),
      List.find? (fun p => decide (p.1 = k')) (l.filter (fun p => ¬ p.1 = k))
        = List.find? (fun p => decide (p.1 = k')) l := by
    intro l
    induction l with
    | nil => rfl
    | cons p l ih =>
      by_cases hp1 : p.1 = k'
      · have hpk : ¬ p.1 = k := fun hh => h (hh ▸ hp1)
        rw [List.filter_cons, if_pos (by simpa using hpk),
          List.find?_cons_of_pos _ (by simpa using hp1),
          List.find?_cons_of_pos _ (by simpa using hp1)]
      · by_cases hpk : p.1 = k
        · rw [List.filter_cons, if_neg (by simpa using hpk), ih,
            List.find?_cons_of_neg _ (by simpa using hp1)]
        · rw [List.filter_cons, if_pos (by simpa using hpk),
            List.find?_cons_of_neg _ (by simpa using hp1),
            List.find?_cons_of_neg _ (by simpa using hp1), ih]
  simp only [Tbl.get?, Tbl.set]
  rw [List.find?_cons_of_neg _ (by simpa using h), key]

end Tbl

namespace Signaling

theorem byteAt_mod (b0 b1 b2 b3 j : Nat) :
    byteAt (b0 % 29) (b1 % 29) (b2 % 29) (b3 % 29) j = byteAt b0 b1 b2 b3 j % 29 := by
  match j with
  | 0 => rfl
  | 1 => rfl
  | 2 => rfl
  | (n+3) => rfl

theorem generateRoomCode_mod (b0 b1 b2 b3 : Nat) :
    generateRoomCode (b0 % 29) (b1 % 29) (b2 % 29) (b3 % 29) = generateRoomCode b0 b1 b2 b3 := by
  simp only [generateRoomCode]
  refine List.map_congr_left ?_
  intro i _
  rw [byteAt_mod]
  rw [show BASE32_ALPHABET.length = 29 from rfl, Nat.mod_mod_of_dvd _ dvd_rfl]

theorem getD_mem_of_mem {l : List Char} {d : Char} (hd : d ∈ l) (n : Nat) : l.getD n d ∈ l := by
  rw [List.getD_eq_getElem?_getD]
  cases h : l[n]? with
  | none => simpa using hd
  | some x => simpa using List.getElem?_mem h

theorem generateRoomCode_mem (b0 b1 b2 b3 : Nat) :
    ∀ ch ∈ generateRoomCode b0 b1 b2 b3, ch ∈ BASE32_ALPHABET := by
  intro ch hch
  simp only [generateRoomCode, List.mem_map] at hch
  obtain ⟨i, _, rfl⟩ := hch
  exact getD_mem_of_mem (by decide) _

theorem generateRoomCode_length (b0 b1 b2 b3 : Nat) :
    (generateRoomCode b0 b1 b2 b3).length = 6 := rfl

end Signaling

/-- Claim C10: every code returned by `generateRoomCode` repeats its first
two characters at positions 4 and 5 (`code[4] = code[0]`,
`code[5] = code[1]`), because only 4 random bytes are drawn and indexed
modulo 4; consequently the generator can produce at most `29 ^ 4`
distinct room codes (any set of draws yields at most `29 ^ 4` distinct
codes), not `29 ^ 6`. -/
theorem generateRoomCode_repeats_and_small_space :
    (∀ b0 b1 b2 b3 : Nat,
      (Signaling.generateRoomCode b0 b1 b2 b3).get? 4 = (Signaling.generateRoomCode b0 b1 b2 b3).get? 0 ∧
      (Signaling.generateRoomCode b0 b1 b2 b3).get? 5 = (Signaling.generateRoomCode b0 b1 b2 b3).get? 1) ∧
    ∀ S : Finset (Nat × Nat × Nat × Nat),
      (S.image (fun q => Signaling.generateRoomCode q.1 q.2.1 q.2.2.1 q.2.2.2)).card ≤ 29 ^ 4 := by
  constructor
  · intro b0 b1 b2 b3
    exact ⟨rfl, rfl⟩
  · intro S
    classical
    have hsub : S.image (fun q => Signaling.generateRoomCode q.1 q.2.1 q.2.2.1 q.2.2.2) ⊆
        ((Finset.range 29) ×ˢ (Finset.range 29) ×ˢ (Finset.range 29) ×ˢ (Finset.range 29)).image
          (fun q => Signaling.generateRoomCode q.1 q.2.1 q.2.2.1 q.2.2.2) := by
      intro c hc
      obtain ⟨q, _, rfl⟩ := Finset.mem_image.mp hc
      refine Finset.mem_image.mpr ⟨(q.1 % 29, q.2.1 % 29, q.2.2.1 % 29, q.2.2.2 % 29), ?_, ?_⟩
      · simp [Finset.mem_product]
        omega
      · exact Signaling.generateRoomCode_mod _ _ _ _
    calc (S.image _).card ≤ _ := Finset.card_le_card hsub
      _ ≤ ((Finset.range 29) ×ˢ (Finset.range 29) ×ˢ (Finset.range 29) ×ˢ (Finset.range 29)).card :=
          Finset.card_image_le
      _ = 29 ^ 4 := by simp [Finset.card_product]

/-- Claim C3 (code bug): the code violates the claim — the 5000 ms stability timer
installed when ICE reaches `connected`/`completed` has an empty callback
(comments only), so when it fires the relay socket is *not* closed —
here evaluated at the failing input (WebRTC stable, relay socket open):
the relay socket remains open, and in general the fire changes nothing
but the timer flag. -/
theorem stableTimerFire_leaves_relay_open :
    (Client.onStableTimerFire
      { reconnectTimerPending := true, relaySocketOpen := true,
        dataChannelOpen := true }).relaySocketOpen = true ∧
    (∀ s : Client.WebRTCLinkState,
      (Client.onStableTimerFire s).relaySocketOpen = s.relaySocketOpen ∧
      (Client.onStableTimerFire s).dataChannelOpen = s.dataChannelOpen) := by
  exact ⟨rfl, fun s => ⟨rfl, rfl⟩⟩

namespace Client

theorem simulateCloses_short : ∀ (rands : List ℚ) (a : Nat), a + rands.length < 10 →
    simulateCloses a rands = (a + rands.length, false) := by
  intro rands
  induction rands with
  | nil => intro a _; simp [simulateCloses]
  | cons r rest ih =>
    intro a h
    simp only [List.length_cons] at h
    have h1 : a + 1 < 10 := by omega
    simp only [simulateCloses, relayOnClose, if_pos h1]
    rw [if_pos trivial, ih (a + 1) (by omega)]
    simp only [List.length_cons]
    congr 1
    omega

theorem simulateCloses_fatal : ∀ (rands : List ℚ) (a : Nat), a + rands.length = 10 →
    rands ≠ [] → simulateCloses a rands = (10, true) := by
  intro rands
  induction rands with
  | nil => intro a _ hne; exact absurd rfl hne
  | cons r rest ih =>
    intro a h _
    simp only [List.length_cons] at h
    by_cases hrest : rest = []
    · subst hrest
      have ha : a = 9 := by simpa using h
      subst ha
      simp [simulateCloses, relayOnClose]
    · have h1 : a + 1 < 10 := by
        have : rest.length ≥ 1 := List.length_pos.mpr hrest
        omega
      simp only [simulateCloses, relayOnClose, if_pos h1]
      rw [if_pos trivial, ih (a + 1) (by omega) hrest]

theorem runNet_fires_noop : ∀ (es : List NetEvent) (s : NetState),
    (∀ e ∈ es, e = NetEvent.webrtcTimerFire) → s.webrtcTimeoutPending = false →
    runNet s es = s := by
  intro es
  induction es with
  | nil => intro s _ _; rfl
  | cons e rest ih =>
    intro s hall hp
    have he : e = NetEvent.webrtcTimerFire := hall e (by simp)
    subst he
    have hstep : netStep s NetEvent.webrtcTimerFire = s := by
      simp [netStep, hp]
    simp only [runNet, List.foldl_cons, hstep]
    exact ih s (fun e he => hall e (by simp [he])) hp

theorem runNet_fires_pending (es : List NetEvent) (s : NetState)
    (hall : ∀ e ∈ es, e = NetEvent.webrtcTimerFire) (hne : es ≠ [])
    (hp : s.webrtcTimeoutPending = true) (hc : s.connectionType = none)
    (hr : s.role.isSome) (hm : s.roomCode.isSome) :
    runNet s es = { s with webrtcTimeoutPending := false,
                           fallbacksInitiated := s.fallbacksInitiated + 1 } := by
  cases es with
  | nil => exact absurd rfl hne
  | cons e rest =>
    have he : e = NetEvent.webrtcTimerFire := hall e (by simp)
    subst he
    have hstep : netStep s NetEvent.webrtcTimerFire
        = { s with webrtcTimeoutPending := false,
                   fallbacksInitiated := s.fallbacksInitiated + 1 } := by
      simp only [netStep, hp, if_pos]
      simp only [initiateRelayFallback, hc]
      rw [if_neg (by simp), if_neg ?_]
      · intro hor
        rcases hor with h | h
        · rw [h] at hr; simp at hr
        · rw [h] at hm; simp at hm
    simp only [runNet, List.foldl_cons, hstep]
    exact runNet_fires_noop rest _ (fun e he => hall e (by simp [he])) rfl

end Client

/-- Claim C5: every relay reconnect attempt `n` is scheduled after a
delay of `min(1000 * 2^n, 30000)` milliseconds plus a jitter drawn from
`[0, 1000)`, and after the 10th consecutive connection failure (the
`reconnectAttemptsRef` counter reaching 10) the handler declares the
fatal failure instead of reconnecting, while any run of fewer than 10
failures keeps scheduling reconnects. -/
theorem relayReconnectBackoffPolicy :
    (∀ (n : Nat) (r : ℚ), 0 ≤ r → r < 1 →
      ∃ j : ℚ, 0 ≤ j ∧ j < 1000 ∧
        (Client.relayOnClose n r).2.1 = min (1000 * 2 ^ n) 30000 + j) ∧
    (∀ rands : List ℚ, rands.length = 10 → Client.simulateCloses 0 rands = (10, true)) ∧
    (∀ rands : List ℚ, rands.length < 10 →
      Client.simulateCloses 0 rands = (rands.length, false)) := by
  refine ⟨?_, ?_, ?_⟩
  · intro n r h0 h1
    refine ⟨r * 1000, by positivity, by linarith, rfl⟩
  · intro rands hlen
    exact Client.simulateCloses_fatal rands 0 (by omega) (by intro hh; simp [hh] at hlen)
  · intro rands hlen
    simpa using Client.simulateCloses_short rands 0 (by omega)

/-- Witness for C5 at `n = 3`, `r = 1/2` and a run of 10 failed
attempts. -/
theorem relayReconnectBackoffPolicy_witness :
    (∃ j : ℚ, 0 ≤ j ∧ j < 1000 ∧
      (Client.relayOnClose 3 (1/2)).2.1 = min (1000 * 2 ^ 3) 30000 + j) ∧
    Client.simulateCloses 0 (List.replicate 10 (1/2 : ℚ)) = (10, true) :=
  ⟨relayReconnectBackoffPolicy.1 3 (1/2) (by norm_num) (by norm_num),
   relayReconnectBackoffPolicy.2.1 (List.replicate 10 (1/2 : ℚ)) (by simp)⟩

/-- Claim C4: in a run where the WebRTC timeout timer is armed once (the
`hello-ack` starts negotiation) and ICE never reaches connected (no
`iceConnected` event, no relay ack), once the 6000 ms timer fires the
orchestrator initiates the relay fallback exactly once — later spurious
fires change nothing. -/
theorem webrtcTimeout_falls_back_exactly_once (role room : String)
    (pre post : List Client.NetEvent)
    (hpre : ∀ e ∈ pre, e = Client.NetEvent.webrtcTimerFire)
    (hpost : ∀ e ∈ post, e = Client.NetEvent.webrtcTimerFire)
    (hne : post ≠ []) :
    (Client.runNet { role := some role, roomCode := some room }
      (pre ++ Client.NetEvent.helloAckTurn :: post)).fallbacksInitiated = 1 := by
  set s0 : Client.NetState := { role := some role, roomCode := some room } with hs0
  have h1 : Client.runNet s0 (pre ++ Client.NetEvent.helloAckTurn :: post)
      = Client.runNet (Client.netStep (Client.runNet s0 pre) Client.NetEvent.helloAckTurn) post := by
    simp [Client.runNet, List.foldl_append]
  rw [h1, Client.runNet_fires_noop pre s0 hpre rfl]
  have h2 : Client.netStep s0 Client.NetEvent.helloAckTurn
      = { s0 with webrtcTimeoutPending := true } := rfl
  rw [h2, Client.runNet_fires_pending post _ hpost hne rfl rfl (by simp [hs0]) (by simp [hs0])]

/-- Witness for C4: hello-ack followed by the timer firing. -/
theorem webrtcTimeout_falls_back_exactly_once_witness :
    (Client.runNet { role := some "host", roomCode := some "AAAAAA" }
      ([] ++ Client.NetEvent.helloAckTurn :: [Client.NetEvent.webrtcTimerFire])).fallbacksInitiated
      = 1 :=
  webrtcTimeout_falls_back_exactly_once "host" "AAAAAA" []
    [Client.NetEvent.webrtcTimerFire] (by simp) (by simp) (by simp)

namespace Relay

theorem checkRateLimit_admit (tbl : Tbl String RateEntry) (ip : String) (t t0 : Nat)
    (pre : List Nat) (hget : tbl.get? ip = some { messages := pre, lastReset := t0 })
    (hwin : t - t0 < 1000) (hlen : pre.length < 60) :
    checkRateLimit tbl ip t
      = (tbl.set ip { messages := pre ++ [t], lastReset := t0 }, none) := by
  simp [checkRateLimit, hget, Nat.not_le.mpr hwin, MAX_MESSAGES_PER_SECOND, Nat.not_le.mpr hlen]

theorem checkRateLimit_reject (tbl : Tbl String RateEntry) (ip : String) (t t0 : Nat)
    (pre : List Nat) (hget : tbl.get? ip = some { messages := pre, lastReset := t0 })
    (hwin : t - t0 < 1000) (hlen : pre.length ≥ 60) :
    checkRateLimit tbl ip t
      = (tbl.set ip { messages := pre, lastReset := t0 }, some "RATE_LIMITED") := by
  simp [checkRateLimit, hget, Nat.not_le.mpr hwin, MAX_MESSAGES_PER_SECOND, hlen]

theorem runRateChecks_window : ∀ (rest : List Nat) (tbl : Tbl String RateEntry)
    (ip : String) (pre : List Nat) (t0 : Nat),
    tbl.get? ip = some { messages := pre, lastReset := t0 } →
    (∀ t ∈ rest, t - t0 < 1000) →
    1 ≤ pre.length → pre.length ≤ 60 → pre.length + rest.length = 61 →
    (runRateChecks tbl ip rest).2
      = List.replicate (60 - pre.length) none ++ [some "RATE_LIMITED"] := by
  intro rest
  induction rest with
  | nil => intro tbl ip pre t0 _ _ h1 hle hsum; simp at hsum; omega
  | cons t rest ih =>
    intro tbl ip pre t0 hget hwin h1 hle hsum
    by_cases hflood : pre.length ≥ 60
    · have hlen : pre.length = 60 := by simp only [List.length_cons] at hsum; omega
      have hrest : rest = [] := by
        have h2 := hsum
        simp only [List.length_cons] at h2
        exact List.length_eq_zero.mp (by omega)
      subst hrest
      simp only [runRateChecks, checkRateLimit_reject tbl ip t t0 pre hget (hwin t (by simp)) hflood]
      simp [hlen]
    · push_neg at hflood
      simp only [runRateChecks,
        checkRateLimit_admit tbl ip t t0 pre hget (hwin t (by simp)) hflood]
      rw [ih _ ip (pre ++ [t]) t0 (Tbl.get_set_self _ _ _)
        (fun u hu => hwin u (by simp [hu])) (by simp) (by simp; omega)
        (by simp at hsum ⊢; omega)]
      have : 60 - pre.length = (60 - (pre.length + 1)) + 1 := by omega
      rw [this]
      simp [List.replicate_succ]

end Relay

/-- Claim C2: a relay `role(host)` (resp. `role(guest)`) against a
session whose host (resp. guest) slot is occupied closes the previous
slot-holder's socket with code 1000 and reason "Replaced by new host"
(resp. "Replaced by new guest"), installs the sender's socket in that
slot (the slot holds the new socket — never empty — in the stored
session), and replies `role-ack`. -/
theorem relayRole_replaces_occupied_slot :
    (∀ (sessions : Relay.Sessions) (room : String) (s : Relay.RelaySession)
        (ws prev : Relay.WS) (now : Nat),
      room ≠ "" → sessions.get? room = some s → s.roomCode = room → s.host = some prev →
      Relay.handleRoleMessage sessions ws
          { mtype := "role", role := some "host", room := some room } now
        = Except.ok
            (sessions.set room
              { s with host := some { ws with role := some "host", session := some room },
                       lastActivity := now },
             { ws with role := some "host", session := some room },
             [Relay.Effect.closeSock prev.id 1000 "Replaced by new host",
              Relay.Effect.send ws.id (Relay.Frame.roleAck "host" room)])) ∧
    (∀ (sessions : Relay.Sessions) (room : String) (s : Relay.RelaySession)
        (ws prev : Relay.WS) (now : Nat),
      room ≠ "" → sessions.get? room = some s → s.roomCode = room → s.guest = some prev →
      Relay.handleRoleMessage sessions ws
          { mtype := "role", role := some "guest", room := some room } now
        = Except.ok
            (sessions.set room
              { s with guest := some { ws with role := some "guest", session := some room },
                       lastActivity := now },
             { ws with role := some "guest", session := some room },
             [Relay.Effect.closeSock prev.id 1000 "Replaced by new guest",
              Relay.Effect.send ws.id (Relay.Frame.roleAck "guest" room)])) := by
  constructor
  · intro sessions room s ws prev now hroom hget hcode hhost
    simp [Relay.handleRoleMessage, Relay.RelaySession.addPlayer, hget, hhost, hcode, hroom]
  · intro sessions room s ws prev now hroom hget hcode hguest
    simp [Relay.handleRoleMessage, Relay.RelaySession.addPlayer, hget, hguest, hcode, hroom]

/-- Witness for C2: a second host and a second guest taking over a
concrete occupied session. -/
theorem relayRole_replaces_occupied_slot_witness :
    (Relay.handleRoleMessage
        [("ROOM", { roomCode := "ROOM",
                    host := some { id := 1, remoteAddress := "p", isOpen := true },
                    createdAt := 0, lastActivity := 0 })]
        { id := 2, remoteAddress := "q", isOpen := true }
        { mtype := "role", role := some "host", room := some "ROOM" } 5
      = Except.ok
          (Tbl.set
            [("ROOM", { roomCode := "ROOM",
                        host := some { id := 1, remoteAddress := "p", isOpen := true },
                        createdAt := 0, lastActivity := 0 })]
            "ROOM"
            { roomCode := "ROOM",
              host := some { id := 2, remoteAddress := "q", isOpen := true,
                             role := some "host", session := some "ROOM" },
              createdAt := 0, lastActivity := 5 },
           { id := 2, remoteAddress := "q", isOpen := true,
             role := some "host", session := some "ROOM" },
           [Relay.Effect.closeSock 1 1000 "Replaced by new host",
            Relay.Effect.send 2 (Relay.Frame.roleAck "host" "ROOM")])) ∧
    (Relay.handleRoleMessage
        [("ROOM", { roomCode := "ROOM",
                    guest := some { id := 3, remoteAddress := "g", isOpen := true },
                    createdAt := 0, lastActivity := 0 })]
        { id := 4, remoteAddress := "q", isOpen := true }
        { mtype := "role", role := some "guest", room := some "ROOM" } 5
      = Except.ok
          (Tbl.set
            [("ROOM", { roomCode := "ROOM",
                        guest := some { id := 3, remoteAddress := "g", isOpen := true },
                        createdAt := 0, lastActivity := 0 })]
            "ROOM"
            { roomCode := "ROOM",
              guest := some { id := 4, remoteAddress := "q", isOpen := true,
                              role := some "guest", session := some "ROOM" },
              createdAt := 0, lastActivity := 5 },
           { id := 4, remoteAddress := "q", isOpen := true,
             role := some "guest", session := some "ROOM" },
           [Relay.Effect.closeSock 3 1000 "Replaced by new guest",
            Relay.Effect.send 4 (Relay.Frame.roleAck "guest" "ROOM")])) :=
  ⟨relayRole_replaces_occupied_slot.1
      [("ROOM", { roomCode := "ROOM",
                  host := some { id := 1, remoteAddress := "p", isOpen := true },
                  createdAt := 0, lastActivity := 0 })]
      "ROOM" _ { id := 2, remoteAddress := "q", isOpen := true }
      { id := 1, remoteAddress := "p", isOpen := true } 5 (by decide) rfl rfl rfl,
   relayRole_replaces_occupied_slot.2
      [("ROOM", { roomCode := "ROOM",
                  guest := some { id := 3, remoteAddress := "g", isOpen := true },
                  createdAt := 0, lastActivity := 0 })]
      "ROOM" _ { id := 4, remoteAddress := "q", isOpen := true }
      { id := 3, remoteAddress := "g", isOpen := true } 5 (by decide) rfl rfl rfl⟩

/-- Claim C7: messages from one IP arriving within one rate window (all
inside one second of the first arrival, so the per-second reset never
triggers): starting from a fresh IP, the rate limiter admits the first
60 messages (outcome `none`, so `handleMessage` dispatches them) and
rejects the 61st with `RATE_LIMITED`; at the rejection, `handleMessage`
emits exactly the typed `error` frame back to the sender — no
`closeSock` effect, and the session table is untouched. -/
theorem relayRateLimit_sixty_per_second :
    (∀ (tbl : Tbl String Relay.RateEntry) (ip : String) (t0 : Nat) (rest : List Nat),
      tbl.get? ip = none → rest.length = 60 → (∀ t ∈ rest, t - t0 < 1000) →
      (Relay.runRateChecks tbl ip (t0 :: rest)).2
        = List.replicate 60 none ++ [some "RATE_LIMITED"]) ∧
    (∀ (st : Relay.RelayState) (ws : Relay.WS) (dataLen : Nat) (m : Relay.Msg)
        (now t0 : Nat) (ms : List Nat),
      dataLen ≤ Relay.MAX_MESSAGE_SIZE → ws.isOpen = true →
      st.rateLimits.get? ws.remoteAddress = some { messages := ms, lastReset := t0 } →
      ms.length ≥ 60 → now - t0 < 1000 →
      Relay.handleMessage st ws dataLen m now
        = ({ st with rateLimits :=
              st.rateLimits.set ws.remoteAddress { messages := ms, lastReset := t0 } },
           ws, [Relay.Effect.send ws.id (Relay.Frame.errorF "RATE_LIMITED" none)])) := by
  constructor
  · intro tbl ip t0 rest hfresh hlen hwin
    have hfirst : Relay.checkRateLimit tbl ip t0
        = (tbl.set ip { messages := [t0], lastReset := t0 }, none) := by
      simp [Relay.checkRateLimit, hfresh, Relay.MAX_MESSAGES_PER_SECOND]
    simp only [Relay.runRateChecks, hfirst]
    rw [Relay.runRateChecks_window rest _ ip [t0] t0 (Tbl.get_set_self _ _ _) hwin (by simp)
      (by simp) (by simp [hlen])]
    rfl
  · intro st ws dataLen m now t0 ms hsize hopen hget hlen hwin
    have hsz : ¬ (dataLen > Relay.MAX_MESSAGE_SIZE) := Nat.not_lt.mpr hsize
    simp only [Relay.handleMessage, if_neg hsz]
    rw [Relay.checkRateLimit_reject st.rateLimits ws.remoteAddress now t0 ms hget hwin hlen]
    simp [Relay.sendError, hopen]

/-- Witness for C7: 61 pings at time 0 from a fresh IP, and the
rejection of a message when the window already holds 60 entries. -/
theorem relayRateLimit_sixty_per_second_witness :
    (Relay.runRateChecks ([] : Tbl String Relay.RateEntry) "ip" (0 :: List.replicate 60 0)).2
      = List.replicate 60 none ++ [some "RATE_LIMITED"] ∧
    Relay.handleMessage
        { sessions := [],
          rateLimits := [("ip", { messages := List.replicate 60 0, lastReset := 0 })] }
        { id := 7, remoteAddress := "ip", isOpen := true } 10 { mtype := "ping" } 0
      = ({ sessions := [],
           rateLimits := Tbl.set [("ip", { messages := List.replicate 60 0, lastReset := 0 })]
             "ip" { messages := List.replicate 60 0, lastReset := 0 } },
         { id := 7, remoteAddress := "ip", isOpen := true },
         [Relay.Effect.send 7 (Relay.Frame.errorF "RATE_LIMITED" none)]) :=
  ⟨relayRateLimit_sixty_per_second.1 [] "ip" 0 (List.replicate 60 0) rfl (by simp)
      (by intro t ht; simp at ht; omega),
   relayRateLimit_sixty_per_second.2
      { sessions := [],
        rateLimits := [("ip", { messages := List.replicate 60 0, lastReset := 0 })] }
      { id := 7, remoteAddress := "ip", isOpen := true } 10 { mtype := "ping" } 0 0
      (List.replicate 60 0) (by decide) rfl rfl (by simp) (by decide)⟩

/-- Claim C8: a relay `input` from a socket that never sent a `role`
message (its `ws.session` expando is unset) is answered with an `error`
frame whose code is `NOT_IN_SESSION`, and the session table is unchanged
(only the rate-limit table records the arrival). -/
theorem relayInput_before_role_not_in_session :
    ∀ (st : Relay.RelayState) (ws : Relay.WS) (dataLen : Nat) (m : Relay.Msg) (now : Nat),
    ws.session = none → ws.isOpen = true → dataLen ≤ Relay.MAX_MESSAGE_SIZE →
    m.mtype = "input" →
    (Relay.checkRateLimit st.rateLimits ws.remoteAddress now).2 = none →
    Relay.handleMessage st ws dataLen m now
      = ({ st with rateLimits := (Relay.checkRateLimit st.rateLimits ws.remoteAddress now).1 },
         ws, [Relay.Effect.send ws.id (Relay.Frame.errorF "NOT_IN_SESSION" none)]) := by
  intro st ws dataLen m now hsession hopen hsize hm hrate
  have hsz : ¬ (dataLen > Relay.MAX_MESSAGE_SIZE) := Nat.not_lt.mpr hsize
  have hcr : Relay.checkRateLimit st.rateLimits ws.remoteAddress now
      = ((Relay.checkRateLimit st.rateLimits ws.remoteAddress now).1, none) := by
    rw [← hrate]
  simp only [Relay.handleMessage, if_neg hsz]
  rw [hcr]
  simp [Relay.handleInputMessage, Relay.sendError, hm, hsession, hopen]

/-- Witness for C8: the very first message of a fresh socket is an
`input`. -/
theorem relayInput_before_role_not_in_session_witness :
    Relay.handleMessage { sessions := [], rateLimits := [] }
        { id := 7, remoteAddress := "ip", isOpen := true } 10 { mtype := "input" } 0
      = ({ sessions := [],
           rateLimits := (Relay.checkRateLimit [] "ip" 0).1 },
         { id := 7, remoteAddress := "ip", isOpen := true },
         [Relay.Effect.send 7 (Relay.Frame.errorF "NOT_IN_SESSION" none)]) :=
  relayInput_before_role_not_in_session { sessions := [], rateLimits := [] }
    { id := 7, remoteAddress := "ip", isOpen := true } 10 { mtype := "input" } 0
    rfl rfl (by decide) rfl rfl

/-- Claim C9 counterexample: the claim says an `input` from a socket
with no session is silently dropped with no error frame returned to the
sender; but evaluating the relay on a concrete fresh socket whose first
message is `input` shows a typed `error` frame with code
`NOT_IN_SESSION` *is* sent back to the sender. -/
theorem relayInput_noSession_sends_error_frame :
    Relay.handleMessage { sessions := [], rateLimits := [] }
      { id := 7, remoteAddress := "ip", isOpen := true } 10
      { mtype := "input" } 0
      = ({ sessions := [],
           rateLimits := [("ip", { messages := [0], lastReset := 0 })] },
         { id := 7, remoteAddress := "ip", isOpen := true },
         [Relay.Effect.send 7 (Relay.Frame.errorF "NOT_IN_SESSION" none)]) := by
  rfl

/-- Claim C9 (amended): a relay `input` is accepted only from the socket
in the guest slot.  It is silently dropped — logged, with no frame sent
to anyone — when sent by the host (a socket with a live session whose
role is not guest); when the guest sends it while the host slot is empty
or the host socket is not open, the drop is likewise logged with no
error returned to the sender; when the host slot is occupied by an open
socket, the message is forwarded to it verbatim; but a socket with *no*
session is not dropped silently — it receives an `error` frame with code
`NOT_IN_SESSION`. -/
theorem relayInput_guest_only_policy :
    (∀ (st : Relay.RelayState) (ws : Relay.WS) (dataLen : Nat) (m : Relay.Msg)
        (now : Nat) (sc : String) (s : Relay.RelaySession),
      dataLen ≤ Relay.MAX_MESSAGE_SIZE → m.mtype = "input" →
      (Relay.checkRateLimit st.rateLimits ws.remoteAddress now).2 = none →
      ws.session = some sc → st.sessions.get? sc = some s → ws.role = some "host" →
      Relay.handleMessage st ws dataLen m now
        = ({ st with rateLimits := (Relay.checkRateLimit st.rateLimits ws.remoteAddress now).1 },
           ws, [Relay.Effect.logWarn "Host attempting to send input message"])) ∧
    (∀ (st : Relay.RelayState) (ws : Relay.WS) (dataLen : Nat) (m : Relay.Msg)
        (now : Nat) (sc : String) (s : Relay.RelaySession),
      dataLen ≤ Relay.MAX_MESSAGE_SIZE → m.mtype = "input" →
      (Relay.checkRateLimit st.rateLimits ws.remoteAddress now).2 = none →
      ws.session = some sc → st.sessions.get? sc = some s → ws.role = some "guest" →
      s.host.map Relay.WS.id ≠ some ws.id →
      (s.host = none ∨ ∃ h, s.host = some h ∧ h.isOpen = false) →
      Relay.handleMessage st ws dataLen m now
        = ({ st with rateLimits := (Relay.checkRateLimit st.rateLimits ws.remoteAddress now).1 },
           ws, [Relay.Effect.logWarn "Failed to forward input message - no host connected"])) ∧
    (∀ (st : Relay.RelayState) (ws : Relay.WS) (dataLen : Nat) (m : Relay.Msg)
        (now : Nat) (sc : String) (s : Relay.RelaySession) (h : Relay.WS),
      dataLen ≤ Relay.MAX_MESSAGE_SIZE → m.mtype = "input" →
      (Relay.checkRateLimit st.rateLimits ws.remoteAddress now).2 = none →
      ws.session = some sc → st.sessions.get? sc = some s → ws.role = some "guest" →
      s.host.map Relay.WS.id ≠ some ws.id →
      s.host = some h → h.isOpen = true →
      Relay.handleMessage st ws dataLen m now
        = ({ st with
              rateLimits := (Relay.checkRateLimit st.rateLimits ws.remoteAddress now).1,
              sessions := st.sessions.set sc
                { s with messageCount := s.messageCount + 1, lastActivity := now } },
           ws, [Relay.Effect.send h.id (Relay.Frame.forward m)])) ∧
    (∀ (st : Relay.RelayState) (ws : Relay.WS) (dataLen : Nat) (m : Relay.Msg) (now : Nat),
      dataLen ≤ Relay.MAX_MESSAGE_SIZE → m.mtype = "input" →
      (Relay.checkRateLimit st.rateLimits ws.remoteAddress now).2 = none →
      ws.session = none → ws.isOpen = true →
      Relay.handleMessage st ws dataLen m now
        = ({ st with rateLimits := (Relay.checkRateLimit st.rateLimits ws.remoteAddress now).1 },
           ws, [Relay.Effect.send ws.id (Relay.Frame.errorF "NOT_IN_SESSION" none)])) := by
  refine ⟨?_, ?_, ?_, ?_⟩
  · intro st ws dataLen m now sc s hsize hm hrate hsession hget hrole
    have hsz : ¬ (dataLen > Relay.MAX_MESSAGE_SIZE) := Nat.not_lt.mpr hsize
    have hcr : Relay.checkRateLimit st.rateLimits ws.remoteAddress now
        = ((Relay.checkRateLimit st.rateLimits ws.remoteAddress now).1, none) := by
      rw [← hrate]
    simp only [Relay.handleMessage, if_neg hsz]
    rw [hcr]
    simp [Relay.handleInputMessage, hm, hsession, hget, hrole]
  · intro st ws dataLen m now sc s hsize hm hrate hsession hget hrole hnotself htarget
    have hsz : ¬ (dataLen > Relay.MAX_MESSAGE_SIZE) := Nat.not_lt.mpr hsize
    have hcr : Relay.checkRateLimit st.rateLimits ws.remoteAddress now
        = ((Relay.checkRateLimit st.rateLimits ws.remoteAddress now).1, none) := by
      rw [← hrate]
    simp only [Relay.handleMessage, if_neg hsz]
    rw [hcr]
    rcases htarget with hnone | ⟨h, hsome, hclosed⟩
    · simp [Relay.handleInputMessage, Relay.RelaySession.forwardMessage, hm, hsession, hget,
        hrole, hnotself, hnone]
    · have hne : ¬ (h.id = ws.id) := by
        rw [hsome] at hnotself
        simpa using hnotself
      simp [Relay.handleInputMessage, Relay.RelaySession.forwardMessage, hm, hsession, hget,
        hrole, hne, hsome, hclosed]
  · intro st ws dataLen m now sc s h hsize hm hrate hsession hget hrole hnotself hsome hopen
    have hsz : ¬ (dataLen > Relay.MAX_MESSAGE_SIZE) := Nat.not_lt.mpr hsize
    have hcr : Relay.checkRateLimit st.rateLimits ws.remoteAddress now
        = ((Relay.checkRateLimit st.rateLimits ws.remoteAddress now).1, none) := by
      rw [← hrate]
    have hne : ¬ (h.id = ws.id) := by
      rw [hsome] at hnotself
      simpa using hnotself
    simp only [Relay.handleMessage, if_neg hsz]
    rw [hcr]
    simp [Relay.handleInputMessage, Relay.RelaySession.forwardMessage, hm, hsession, hget,
      hrole, hne, hsome, hopen]
  · intro st ws dataLen m now hsize hm hrate hsession hopen
    have hsz : ¬ (dataLen > Relay.MAX_MESSAGE_SIZE) := Nat.not_lt.mpr hsize
    have hcr : Relay.checkRateLimit st.rateLimits ws.remoteAddress now
        = ((Relay.checkRateLimit st.rateLimits ws.remoteAddress now).1, none) := by
      rw [← hrate]
    simp only [Relay.handleMessage, if_neg hsz]
    rw [hcr]
    simp [Relay.handleInputMessage, Relay.sendError, hm, hsession, hopen]

/-- Witness for the amended C9, exercising all four cases on concrete
sessions: a host's input is dropped with only a log line; a guest's
input with no live host is dropped with only a log line; a guest's
input with an open host is forwarded; a session-less socket gets the
`NOT_IN_SESSION` error frame. -/
theorem relayInput_guest_only_policy_witness :
    (Relay.handleMessage
        { sessions :=
            [("R",
              { roomCode := "R",
                host := some
                  { id := 1, remoteAddress := "a", isOpen := true,
                    role := some "host", session := some "R" },
                createdAt := 0, lastActivity := 0 })],
          rateLimits := [] }
        { id := 1, remoteAddress := "a", isOpen := true,
          role := some "host", session := some "R" }
        10 { mtype := "input" } 0
      = ({ sessions :=
             [("R",
               { roomCode := "R",
                 host := some
                   { id := 1, remoteAddress := "a", isOpen := true,
                     role := some "host", session := some "R" },
                 createdAt := 0, lastActivity := 0 })],
           rateLimits := (Relay.checkRateLimit [] "a" 0).1 },
         { id := 1, remoteAddress := "a", isOpen := true,
           role := some "host", session := some "R" },
         [Relay.Effect.logWarn "Host attempting to send input message"])) ∧
    (Relay.handleMessage
        { sessions :=
            [("R",
              { roomCode := "R",
                guest := some
                  { id := 2, remoteAddress := "b", isOpen := true,
                    role := some "guest", session := some "R" },
                createdAt := 0, lastActivity := 0 })],
          rateLimits := [] }
        { id := 2, remoteAddress := "b", isOpen := true,
          role := some "guest", session := some "R" }
        10 { mtype := "input" } 0
      = ({ sessions :=
             [("R",
               { roomCode := "R",
                 guest := some
                   { id := 2, remoteAddress := "b", isOpen := true,
                     role := some "guest", session := some "R" },
                 createdAt := 0, lastActivity := 0 })],
           rateLimits := (Relay.checkRateLimit [] "b" 0).1 },
         { id := 2, remoteAddress := "b", isOpen := true,
           role := some "guest", session := some "R" },
         [Relay.Effect.logWarn "Failed to forward input message - no host connected"])) ∧
    (Relay.handleMessage
        { sessions :=
            [("R",
              { roomCode := "R",
                host := some { id := 9, remoteAddress := "h", isOpen := true },
                guest := some
                  { id := 2, remoteAddress := "b", isOpen := true,
                    role := some "guest", session := some "R" },
                createdAt := 0, lastActivity := 0 })],
          rateLimits := [] }
        { id := 2, remoteAddress := "b", isOpen := true,
          role := some "guest", session := some "R" }
        10 { mtype := "input" } 7
      = ({ sessions :=
             Tbl.set
               [("R",
                 { roomCode := "R",
                   host := some { id := 9, remoteAddress := "h", isOpen := true },
                   guest := some
                     { id := 2, remoteAddress := "b", isOpen := true,
                       role := some "guest", session := some "R" },
                   createdAt := 0, lastActivity := 0 })]
               "R"
               { roomCode := "R",
                 host := some { id := 9, remoteAddress := "h", isOpen := true },
                 guest := some
                   { id := 2, remoteAddress := "b", isOpen := true,
                     role := some "guest", session := some "R" },
                 createdAt := 0, lastActivity := 7, messageCount := 1 },
           rateLimits := (Relay.checkRateLimit [] "b" 7).1 },
         { id := 2, remoteAddress := "b", isOpen := true,
           role := some "guest", session := some "R" },
         [Relay.Effect.send 9 (Relay.Frame.forward { mtype := "input" })])) ∧
    (Relay.handleMessage { sessions := [], rateLimits := [] }
        { id := 4, remoteAddress := "d", isOpen := true } 10 { mtype := "input" } 0
      = ({ sessions := [], rateLimits := (Relay.checkRateLimit [] "d" 0).1 },
         { id := 4, remoteAddress := "d", isOpen := true },
         [Relay.Effect.send 4 (Relay.Frame.errorF "NOT_IN_SESSION" none)])) :=
  ⟨relayInput_guest_only_policy.1
      { sessions :=
          [("R",
            { roomCode := "R",
              host := some
                { id := 1, remoteAddress := "a", isOpen := true,
                  role := some "host", session := some "R" },
              createdAt := 0, lastActivity := 0 })],
        rateLimits := [] }
      { id := 1, remoteAddress := "a", isOpen := true,
        role := some "host", session := some "R" }
      10 { mtype := "input" } 0 "R"
      { roomCode := "R",
        host := some
          { id := 1, remoteAddress := "a", isOpen := true,
            role := some "host", session := some "R" },
        createdAt := 0, lastActivity := 0 }
      (by decide) rfl rfl rfl rfl rfl,
   relayInput_guest_only_policy.2.1
      { sessions :=
          [("R",
            { roomCode := "R",
              guest := some
                { id := 2, remoteAddress := "b", isOpen := true,
                  role := some "guest", session := some "R" },
              createdAt := 0, lastActivity := 0 })],
        rateLimits := [] }
      { id := 2, remoteAddress := "b", isOpen := true,
        role := some "guest", session := some "R" }
      10 { mtype := "input" } 0 "R"
      { roomCode := "R",
        guest := some
          { id := 2, remoteAddress := "b", isOpen := true,
            role := some "guest", session := some "R" },
        createdAt := 0, lastActivity := 0 }
      (by decide) rfl rfl rfl rfl rfl (by simp) (Or.inl rfl),
   relayInput_guest_only_policy.2.2.1
      { sessions :=
          [("R",
            { roomCode := "R",
              host := some { id := 9, remoteAddress := "h", isOpen := true },
              guest := some
                { id := 2, remoteAddress := "b", isOpen := true,
                  role := some "guest", session := some "R" },
              createdAt := 0, lastActivity := 0 })],
        rateLimits := [] }
      { id := 2, remoteAddress := "b", isOpen := true,
        role := some "guest", session := some "R" }
      10 { mtype := "input" } 7 "R"
      { roomCode := "R",
        host := some { id := 9, remoteAddress := "h", isOpen := true },
        guest := some
          { id := 2, remoteAddress := "b", isOpen := true,
            role := some "guest", session := some "R" },
        createdAt := 0, lastActivity := 0 }
      { id := 9, remoteAddress := "h", isOpen := true }
      (by decide) rfl rfl rfl rfl rfl (by simp) rfl rfl,
   relayInput_guest_only_policy.2.2.2
      { sessions := [], rateLimits := [] }
      { id := 4, remoteAddress := "d", isOpen := true } 10 { mtype := "input" } 0
      (by decide) rfl rfl rfl rfl⟩

namespace Signaling

theorem genCodeLoop_ok (has : List Char → Bool) :
    ∀ (quads : List (Nat × Nat × Nat × Nat)) (a : Nat) (c : List Char),
    genCodeLoop has quads a = .ok c →
    (∃ b0 b1 b2 b3, c = generateRoomCode b0 b1 b2 b3) ∧ has c = false := by
  intro quads
  induction quads with
  | nil => intro a c h; simp [genCodeLoop] at h
  | cons q rest ih =>
    intro a c h
    obtain ⟨b0, b1, b2, b3⟩ := q
    simp only [genCodeLoop] at h
    by_cases h10 : a + 1 > 10
    · rw [if_pos h10] at h; simp at h
    · rw [if_neg h10] at h
      by_cases hhas : has (generateRoomCode b0 b1 b2 b3) = true
      · rw [if_pos hhas] at h
        exact ih (a + 1) c h
      · rw [if_neg hhas] at h
        simp only [Except.ok.injEq] at h
        subst h
        exact ⟨⟨b0, b1, b2, b3, rfl⟩, by simpa using hhas⟩

theorem genCodeLoop_allCollide (has : List Char → Bool) :
    ∀ (quads : List (Nat × Nat × Nat × Nat)) (a : Nat),
    (∀ q ∈ quads, has (generateRoomCode q.1 q.2.1 q.2.2.1 q.2.2.2) = true) →
    11 ≤ a + quads.length → a ≤ 10 →
    genCodeLoop has quads a = .error "ROOM_GENERATION_FAILED" := by
  intro quads
  induction quads with
  | nil => intro a _ hlen ha; simp at hlen; omega
  | cons q rest ih =>
    intro a hall hlen ha
    obtain ⟨b0, b1, b2, b3⟩ := q
    simp only [genCodeLoop]
    by_cases h10 : a + 1 > 10
    · rw [if_pos h10]
    · rw [if_neg h10]
      have hq := hall (b0, b1, b2, b3) (by simp)
      rw [if_pos hq]
      exact ih (a + 1) (fun u hu => hall u (by simp [hu]))
        (by simp at hlen ⊢; omega) (by omega)

end Signaling

/-- Claim C6: when `hello(role=host)` succeeds, the room code in the
returned `hello-ack` is exactly 6 characters, each drawn from the
restricted unambiguous alphabet, and distinct from the code of every
currently live room; and when every generated code collides with a live
room, the generation loop gives up after its 10 checked attempts,
`hello` fails with `ROOM_GENERATION_FAILED`, and no room is created (the
`rooms` table is unchanged). -/
theorem helloHost_code_generation :
    (∀ (st : Signaling.SigState) (ws : Signaling.WS)
        (quads : List (Nat × Nat × Nat × Nat)) (now : Nat)
        (st' : Signaling.SigState) (ws' : Signaling.WS) (ack : Signaling.HelloAck),
      Signaling.handleHello st ws "host" none quads now = (st', ws', Except.ok ack) →
      ack.room.length = 6 ∧ (∀ ch ∈ ack.room, ch ∈ Signaling.BASE32_ALPHABET) ∧
      st.rooms.has ack.room = false ∧ ack.role = "host") ∧
    (∀ (st : Signaling.SigState) (ws : Signaling.WS)
        (quads : List (Nat × Nat × Nat × Nat)) (now : Nat),
      11 ≤ quads.length →
      (∀ q ∈ quads, st.rooms.has (Signaling.generateRoomCode q.1 q.2.1 q.2.2.1 q.2.2.2) = true) →
      (Signaling.checkRateLimit st.rateLimits ws.remoteAddress now).2 = none →
      (Signaling.handleHello st ws "host" none quads now).2.2
          = Except.error "ROOM_GENERATION_FAILED" ∧
      (Signaling.handleHello st ws "host" none quads now).1.rooms = st.rooms) := by
  constructor
  · intro st ws quads now st' ws' ack h
    have hcr : Signaling.checkRateLimit st.rateLimits ws.remoteAddress now
        = ((Signaling.checkRateLimit st.rateLimits ws.remoteAddress now).1,
           (Signaling.checkRateLimit st.rateLimits ws.remoteAddress now).2) := rfl
    simp only [Signaling.handleHello] at h
    rw [hcr] at h
    cases hrl : (Signaling.checkRateLimit st.rateLimits ws.remoteAddress now).2 with
    | some e => rw [hrl] at h; simp at h
    | none =>
      rw [hrl] at h
      simp only [if_pos rfl] at h
      cases hloop : Signaling.genCodeLoop (fun c => st.rooms.has c) quads 0 with
      | error e => rw [hloop] at h; simp at h
      | ok code =>
        rw [hloop] at h
        simp only [Signaling.Room.addPlayer, Signaling.Room.mkNew] at h
        simp at h
        obtain ⟨hbytes, hhas⟩ := Signaling.genCodeLoop_ok _ quads 0 code hloop
        obtain ⟨b0, b1, b2, b3, rfl⟩ := hbytes
        have hack : ack.room = Signaling.generateRoomCode b0 b1 b2 b3 := by
          rw [← h.2.2]
        refine ⟨by rw [hack]; exact Signaling.generateRoomCode_length b0 b1 b2 b3, ?_, ?_, ?_⟩
        · rw [hack]; exact Signaling.generateRoomCode_mem b0 b1 b2 b3
        · rw [hack]; exact hhas
        · rw [← h.2.2]
  · intro st ws quads now hlen hall hrate
    have hcr : Signaling.checkRateLimit st.rateLimits ws.remoteAddress now
        = ((Signaling.checkRateLimit st.rateLimits ws.remoteAddress now).1, none) := by
      rw [← hrate]
    have hloop : Signaling.genCodeLoop (fun c => st.rooms.has c) quads 0
        = .error "ROOM_GENERATION_FAILED" :=
      Signaling.genCodeLoop_allCollide _ quads 0 hall (by omega) (by omega)
    simp only [Signaling.handleHello]
    rw [hcr]
    simp [hloop]

/-- Witness for C6: a successful hello on an empty registry, and an
exhausted generation run when the only reachable code is already
taken. -/
theorem helloHost_code_generation_witness :
    (Signaling.HelloAck.room { room := ['B','B','B','B','B','B'], role := "host" }).length = 6 ∧
    (∀ ch ∈ Signaling.HelloAck.room { room := ['B','B','B','B','B','B'], role := "host" },
      ch ∈ Signaling.BASE32_ALPHABET) ∧
    (({} : Signaling.SigState)).rooms.has
      (Signaling.HelloAck.room { room := ['B','B','B','B','B','B'], role := "host" }) = false ∧
    (Signaling.HelloAck.role { room := ['B','B','B','B','B','B'], role := "host" }) = "host" ∧
    ((Signaling.handleHello
        { rooms := [(['B','B','B','B','B','B'],
            Signaling.Room.mkNew ['B','B','B','B','B','B'] 0)], rateLimits := [] }
        { id := 3, remoteAddress := "c", isOpen := true }
        "host" none (List.replicate 11 (1, 1, 1, 1)) 0).2.2
      = Except.error "ROOM_GENERATION_FAILED" ∧
    (Signaling.handleHello
        { rooms := [(['B','B','B','B','B','B'],
            Signaling.Room.mkNew ['B','B','B','B','B','B'] 0)], rateLimits := [] }
        { id := 3, remoteAddress := "c", isOpen := true }
        "host" none (List.replicate 11 (1, 1, 1, 1)) 0).1.rooms
      = [(['B','B','B','B','B','B'], Signaling.Room.mkNew ['B','B','B','B','B','B'] 0)]) :=
  ⟨(helloHost_code_generation.1 {} { id := 3, remoteAddress := "c", isOpen := true }
      [(1, 1, 1, 1)] 0
      (Signaling.handleHello {} { id := 3, remoteAddress := "c", isOpen := true }
        "host" none [(1, 1, 1, 1)] 0).1
      (Signaling.handleHello {} { id := 3, remoteAddress := "c", isOpen := true }
        "host" none [(1, 1, 1, 1)] 0).2.1
      { room := ['B','B','B','B','B','B'], role := "host" } rfl).1,
   (helloHost_code_generation.1 {} { id := 3, remoteAddress := "c", isOpen := true }
      [(1, 1, 1, 1)] 0
      (Signaling.handleHello {} { id := 3, remoteAddress := "c", isOpen := true }
        "host" none [(1, 1, 1, 1)] 0).1
      (Signaling.handleHello {} { id := 3, remoteAddress := "c", isOpen := true }
        "host" none [(1, 1, 1, 1)] 0).2.1
      { room := ['B','B','B','B','B','B'], role := "host" } rfl).2.1,
   (helloHost_code_generation.1 {} { id := 3, remoteAddress := "c", isOpen := true }
      [(1, 1, 1, 1)] 0
      (Signaling.handleHello {} { id := 3, remoteAddress := "c", isOpen := true }
        "host" none [(1, 1, 1, 1)] 0).1
      (Signaling.handleHello {} { id := 3, remoteAddress := "c", isOpen := true }
        "host" none [(1, 1, 1, 1)] 0).2.1
      { room := ['B','B','B','B','B','B'], role := "host" } rfl).2.2.1,
   (helloHost_code_generation.1 {} { id := 3, remoteAddress := "c", isOpen := true }
      [(1, 1, 1, 1)] 0
      (Signaling.handleHello {} { id := 3, remoteAddress := "c", isOpen := true }
        "host" none [(1, 1, 1, 1)] 0).1
      (Signaling.handleHello {} { id := 3, remoteAddress := "c", isOpen := true }
        "host" none [(1, 1, 1, 1)] 0).2.1
      { room := ['B','B','B','B','B','B'], role := "host" } rfl).2.2.2,
   helloHost_code_generation.2
      { rooms := [(['B','B','B','B','B','B'],
          Signaling.Room.mkNew ['B','B','B','B','B','B'] 0)], rateLimits := [] }
      { id := 3, remoteAddress := "c", isOpen := true }
      (List.replicate 11 (1, 1, 1, 1)) 0 (by simp) (by decide) rfl⟩

/-- Claim C1 counterexample: the claim says a `hello` whose role slot in
the target room is occupied fails with `ROOM_FULL` — in particular a
second `hello(role=host)` against an occupied room.  But the host branch
of `handleHello` ignores the `room` field entirely and always creates a
fresh room: against a concrete room `AAAAAA` whose host *and* guest
slots are both occupied, `hello(role=host, room=AAAAAA)` succeeds with a
`hello-ack` for a brand-new room instead of failing with
`ROOM_FULL`. -/
theorem helloHost_occupied_room_not_roomFull :
    (Signaling.handleHello
      { rooms := [(['A','A','A','A','A','A'],
          { code := ['A','A','A','A','A','A'],
            host := some { id := 1, remoteAddress := "a", isOpen := true },
            guest := some { id := 2, remoteAddress := "b", isOpen := true },
            createdAt := 0, lastActivity := 0, heartbeatOn := true })],
        rateLimits := [] }
      { id := 3, remoteAddress := "c", isOpen := true }
      "host" (some ['A','A','A','A','A','A']) [(1, 1, 1, 1)] 0).2.2
      = Except.ok { room := ['B','B','B','B','B','B'], role := "host" } ∧
    (Signaling.handleHello
      { rooms := [(['A','A','A','A','A','A'],
          { code := ['A','A','A','A','A','A'],
            host := some { id := 1, remoteAddress := "a", isOpen := true },
            guest := some { id := 2, remoteAddress := "b", isOpen := true },
            createdAt := 0, lastActivity := 0, heartbeatOn := true })],
        rateLimits := [] }
      { id := 3, remoteAddress := "c", isOpen := true }
      "host" (some ['A','A','A','A','A','A']) [(1, 1, 1, 1)] 0).2.2
      ≠ Except.error "ROOM_FULL" := by
  constructor
  · rfl
  · intro h
    rw [show (Signaling.handleHello
      { rooms := [(['A','A','A','A','A','A'],
          { code := ['A','A','A','A','A','A'],
            host := some { id := 1, remoteAddress := "a", isOpen := true },
            guest := some { id := 2, remoteAddress := "b", isOpen := true },
            createdAt := 0, lastActivity := 0, heartbeatOn := true })],
        rateLimits := [] }
      { id := 3, remoteAddress := "c", isOpen := true }
      "host" (some ['A','A','A','A','A','A']) [(1, 1, 1, 1)] 0).2.2
      = Except.ok { room := ['B','B','B','B','B','B'], role := "host" } from rfl] at h
    exact Except.noConfusion h

/-- Claim C1 (amended): the duplicate-role reject policy lives in
`Room.addPlayer` — adding a player to a room whose host (resp. guest)
slot is occupied throws `ROOM_FULL` before any assignment, leaving the
room (both slots) and the socket untouched.  Through `hello` this is
reachable only for guests: `hello(role=guest)` against a room whose
guest slot is occupied returns the `ROOM_FULL` error and leaves the
`rooms` table unchanged.  (`hello(role=host)` always creates a fresh
room and never returns `ROOM_FULL`.) -/
theorem roomRegistry_duplicate_role_rejected :
    (∀ (r : Signaling.Room) (ws w : Signaling.WS) (now : Nat),
      r.host = some w →
      r.addPlayer ws "host" now = (r, ws, some "ROOM_FULL")) ∧
    (∀ (r : Signaling.Room) (ws w : Signaling.WS) (now : Nat),
      r.guest = some w →
      r.addPlayer ws "guest" now = (r, ws, some "ROOM_FULL")) ∧
    (∀ (st : Signaling.SigState) (ws w : Signaling.WS) (rc : List Char)
        (r : Signaling.Room) (quads : List (Nat × Nat × Nat × Nat)) (now : Nat),
      st.rooms.get? rc = some r → r.guest = some w → r.isExpired now = false →
      (Signaling.checkRateLimit st.rateLimits ws.remoteAddress now).2 = none →
      (Signaling.handleHello st ws "guest" (some rc) quads now).1.rooms = st.rooms ∧
      (Signaling.handleHello st ws "guest" (some rc) quads now).2.2
        = Except.error "ROOM_FULL") := by
  refine ⟨?_, ?_, ?_⟩
  · intro r ws w now hhost
    simp [Signaling.Room.addPlayer, hhost]
  · intro r ws w now hguest
    simp [Signaling.Room.addPlayer, hguest]
  · intro st ws w rc r quads now hget hguest hexp hrate
    have hcr : Signaling.checkRateLimit st.rateLimits ws.remoteAddress now
        = ((Signaling.checkRateLimit st.rateLimits ws.remoteAddress now).1, none) := by
      rw [← hrate]
    constructor <;>
      (simp only [Signaling.handleHello]
       rw [hcr]
       simp [hget, hexp, Signaling.Room.addPlayer, hguest])

/-- Witness for the amended C1 on a concrete occupied room. -/
theorem roomRegistry_duplicate_role_rejected_witness :
    (Signaling.Room.addPlayer
        { code := ['A','A','A','A','A','A'],
          host := some { id := 1, remoteAddress := "a", isOpen := true },
          createdAt := 0, lastActivity := 0, heartbeatOn := true }
        { id := 3, remoteAddress := "c", isOpen := true } "host" 5
      = ({ code := ['A','A','A','A','A','A'],
           host := some { id := 1, remoteAddress := "a", isOpen := true },
           createdAt := 0, lastActivity := 0, heartbeatOn := true },
         { id := 3, remoteAddress := "c", isOpen := true }, some "ROOM_FULL")) ∧
    (Signaling.Room.addPlayer
        { code := ['A','A','A','A','A','A'],
          guest := some { id := 2, remoteAddress := "b", isOpen := true },
          createdAt := 0, lastActivity := 0 }
        { id := 3, remoteAddress := "c", isOpen := true } "guest" 5
      = ({ code := ['A','A','A','A','A','A'],
           guest := some { id := 2, remoteAddress := "b", isOpen := true },
           createdAt := 0, lastActivity := 0 },
         { id := 3, remoteAddress := "c", isOpen := true }, some "ROOM_FULL")) ∧
    ((Signaling.handleHello
        { rooms := [(['A','A','A','A','A','A'],
            { code := ['A','A','A','A','A','A'],
              guest := some { id := 2, remoteAddress := "b", isOpen := true },
              createdAt := 0, lastActivity := 0 })],
          rateLimits := [] }
        { id := 3, remoteAddress := "c", isOpen := true }
        "guest" (some ['A','A','A','A','A','A']) [] 0).1.rooms
      = [(['A','A','A','A','A','A'],
          { code := ['A','A','A','A','A','A'],
            guest := some { id := 2, remoteAddress := "b", isOpen := true },
            createdAt := 0, lastActivity := 0 })] ∧
    (Signaling.handleHello
        { rooms := [(['A','A','A','A','A','A'],
            { code := ['A','A','A','A','A','A'],
              guest := some { id := 2, remoteAddress := "b", isOpen := true },
              createdAt := 0, lastActivity := 0 })],
          rateLimits := [] }
        { id := 3, remoteAddress := "c", isOpen := true }
        "guest" (some ['A','A','A','A','A','A']) [] 0).2.2
      = Except.error "ROOM_FULL") :=
  ⟨roomRegistry_duplicate_role_rejected.1
      { code := ['A','A','A','A','A','A'],
        host := some { id := 1, remoteAddress := "a", isOpen := true },
        createdAt := 0, lastActivity := 0, heartbeatOn := true }
      { id := 3, remoteAddress := "c", isOpen := true }
      { id := 1, remoteAddress := "a", isOpen := true } 5 rfl,
   roomRegistry_duplicate_role_rejected.2.1
      { code := ['A','A','A','A','A','A'],
        guest := some { id := 2, remoteAddress := "b", isOpen := true },
        createdAt := 0, lastActivity := 0 }
      { id := 3, remoteAddress := "c", isOpen := true }
      { id := 2, remoteAddress := "b", isOpen := true } 5 rfl,
   roomRegistry_duplicate_role_rejected.2.2
      { rooms := [(['A','A','A','A','A','A'],
          { code := ['A','A','A','A','A','A'],
            guest := some { id := 2, remoteAddress := "b", isOpen := true },
            createdAt := 0, lastActivity := 0 })],
        rateLimits := [] }
      { id := 3, remoteAddress := "c", isOpen := true }
      { id := 2, remoteAddress := "b", isOpen := true }
      ['A','A','A','A','A','A']
      { code := ['A','A','A','A','A','A'],
        guest := some { id := 2, remoteAddress := "b", isOpen := true },
        createdAt := 0, lastActivity := 0 }
      [] 0 rfl rfl rfl rfl⟩
